import Mathlib

/-!
Shallow embedding of the semantic-analysis core of the `langauge` repository:
the entity model (`src/auburn/src/analysis/entity.rs`) and the statement
typer (`src/language/src/analysis/typer/statements.rs`).

Modelling conventions:
* The `usize` counter behind `EntityId::next` starts at 1 and
  `AtomicUsize::fetch_add` wraps modulo `2^64` on overflow (64-bit target
  assumed); the model threads a `Nat` and applies `% USIZE_SIZE` at the
  increment, so the wrap-around — and the id reuse it causes — is
  modelled.
* Opaque collaborator values (`Type`, `Position`, raw syntax items, scope
  handles, HIR pointers) are modelled as `Nat` handles: the code under
  analysis never inspects them, it only stores and forwards them.
* Shared pointers (`Rc`, `Ptr`) are modelled by the pointed-to value;
  interior mutation is explicit state passing.
* The global atomic counter behind `EntityId::next` is modelled by explicit
  counter threading: every constructor takes the current counter value and
  returns the successor.
-/

set_option autoImplicit false

namespace Lang

/-- Opaque source position token (`Position` is out of scope, carried through). -/
abbrev Position := Nat

/-- Opaque handle to a resolved `Type` (`Rc<Type>` in the source; the core
treats it as an opaque, equality-queryable value). -/
abbrev Ty := Nat

/-- Opaque handle to a raw syntax-tree item (`Box<Item>` from `ir::ast`). -/
abbrev RawItem := Nat

/-- Opaque scope handle (`ScopeRef`; the Scope component is external). -/
abbrev ScopeRef := Nat

/-- Opaque HIR expression pointer (`HirExprPtr`). -/
abbrev HirExprPtr := Nat

/-- Opaque HIR type-spec pointer (`HirSpecPtr`). -/
abbrev HirSpecPtr := Nat

/-- Opaque shared entity handle used inside `AssociatedFunctionInfo`
(`EntityRef = Ptr<Entity>`); modelled as a heap address because the code
under analysis only stores it. -/
abbrev EntityHandle := Nat

/-- Modelled from the spec: `Visibility` from `ir::ast` is external;
the spec describes it as "public/private or equivalent". -/
inductive Visibility where
  | Public
  | Private
  deriving DecidableEq

/-- `StructureInfo` from `entity.rs`. -/
structure StructureInfo where
  fields : ScopeRef
  methods : ScopeRef
  deriving DecidableEq

/-- `FunctionInfo` from `entity.rs`. -/
structure FunctionInfo where
  params : ScopeRef
  body_scope : Option ScopeRef
  body : HirExprPtr
  deriving DecidableEq

/-- `AssociatedFunctionInfo` from `entity.rs`. -/
structure AssociatedFunctionInfo where
  entity : EntityHandle
  params : ScopeRef
  body_scope : Option ScopeRef
  body : HirExprPtr
  takes_self : Bool
  index : Nat
  deriving DecidableEq

/-- `VariableInfo` from `entity.rs`. -/
structure VariableInfo where
  spec : Option HirSpecPtr
  mutable : Bool
  global : Bool
  default : Option HirExprPtr
  deriving DecidableEq

/-- `LocalInfo` from `entity.rs`. -/
structure LocalInfo where
  index : Nat
  spec : Option HirSpecPtr
  default : Option HirExprPtr
  deriving DecidableEq

/-- `EntityInfo` from `entity.rs`: resolution state and declaration kind. -/
inductive EntityInfo where
  | Unresolved (item : RawItem)
  | Resolving
  | Primitive
  | Structure (info : StructureInfo)
  | Function (info : FunctionInfo)
  | AssociatedFunction (info : AssociatedFunctionInfo)
  | Variable (info : VariableInfo)
  | Param (info : LocalInfo)
  | SelfParam (mutable : Bool)
  | Field (info : LocalInfo)
  deriving DecidableEq

/-- `Segment` from `entity.rs`: a path component, either a namespace
component (`Segment::Path`) or a leaf object name (`Segment::Object`). -/
inductive Segment where
  | Path (name : String)
  | Object (name : String)
  deriving DecidableEq

/-- The `Display` impl for `Segment`: both variants print their name. -/
def Segment.render : Segment → String
  | .Path name => name
  | .Object name => name

/-- Spec-side accessor: "the names of its segments".  Used to state the
rendering claim against `Segment.render`, which is translated from the
`Display` implementation. -/
def Segment.segmentName : Segment → String
  | .Path name => name
  | .Object name => name

/-- `Path` from `entity.rs`. -/
structure Path where
  segments : List Segment
  deriving DecidableEq

/-- `Path::empty`. -/
def Path.empty : Path := ⟨[]⟩

/-- `Path::push_path`: appends a namespace segment. -/
def Path.push_path (p : Path) (name : String) : Path :=
  ⟨p.segments ++ [Segment.Path name]⟩

/-- `Path::push_object`: appends a leaf-object segment. -/
def Path.push_object (p : Path) (name : String) : Path :=
  ⟨p.segments ++ [Segment.Object name]⟩

/-- `Vec::join` with a separator string, as used by the `Display` impl for
`Path` (`collect_vec().join(".")`). -/
def joinSep (sep : String) : List String → String
  | [] => ""
  | [a] => a
  | a :: b :: rest => a ++ sep ++ joinSep sep (b :: rest)

/-- The `Display` impl for `Path`: render every segment, join with `"."`. -/
def Path.render (p : Path) : String :=
  joinSep "." (p.segments.map Segment.render)

/-- `EntityId` from `entity.rs`. -/
structure EntityId where
  id : Nat
  deriving DecidableEq

/-- Initial value of the static counter behind `EntityId::next`
(`AtomicUsize::new(1)`). -/
def ENTITY_ID_INIT : Nat := 1

/-- The modulus of the counter: `usize` is 64 bits wide (64-bit target
assumed), and `AtomicUsize::fetch_add` wraps modulo `2^64` on overflow. -/
def USIZE_SIZE : Nat := 2 ^ 64

/-- `EntityId::next`: `TOKEN.fetch_add(1, SeqCst)` — returns the current
counter as the fresh id and stores the incremented counter, wrapping
modulo `2^64` as `fetch_add` does on overflow.  The global atomic is
modelled by explicit counter threading; every reachable counter value is
below `USIZE_SIZE` because the initial value is. -/
def EntityId.next (counter : Nat) : EntityId × Nat :=
  (⟨counter⟩, (counter + 1) % USIZE_SIZE)

/-- `Entity` from `entity.rs`. -/
structure Entity where
  id : EntityId
  visibility : Visibility
  name : String
  ty : Ty
  kind : EntityInfo
  path : Path
  deriving DecidableEq

/-- `Entity::unresolved`: fresh entity in `Unresolved` state, new identity,
empty path, sentinel invalid type. -/
def Entity.unresolved (counter : Nat) (visibility : Visibility) (name : String)
    (item : RawItem) (invalid_type : Ty) : Entity × Nat :=
  let (id, counter') := EntityId.next counter
  ({ id := id, visibility := visibility, name := name, ty := invalid_type,
     kind := EntityInfo.Unresolved item, path := Path.empty }, counter')

/-- `Entity::resolving`: fresh entity directly in `Resolving` state. -/
def Entity.resolving (counter : Nat) (visibility : Visibility) (name : String)
    (invalid_type : Ty) : Entity × Nat :=
  let (id, counter') := EntityId.next counter
  ({ id := id, visibility := visibility, name := name, ty := invalid_type,
     kind := EntityInfo.Resolving, path := Path.empty }, counter')

/-- `Entity::resolve`: in-place transition to a terminal state; overwrites
`ty`, `kind` and `path`. -/
def Entity.resolve (e : Entity) (ty : Ty) (kind : EntityInfo) (path : Path) : Entity :=
  { e with ty := ty, kind := kind, path := path }

/-- `Entity::set_visibility`. -/
def Entity.set_visibility (e : Entity) (visibility : Visibility) : Entity :=
  { e with visibility := visibility }

/-- `Entity::to_resolving`: forces `kind` back to `Resolving`. -/
def Entity.to_resolving (e : Entity) : Entity :=
  { e with kind := EntityInfo.Resolving }

/-- `Entity::new`: fresh entity with explicit type, kind and path. -/
def Entity.new (counter : Nat) (visibility : Visibility) (name : String)
    (ty : Ty) (kind : EntityInfo) (path : Path) : Entity × Nat :=
  let (id, counter') := EntityId.next counter
  ({ id := id, visibility := visibility, name := name, ty := ty,
     kind := kind, path := path }, counter')

/-- `new_ptr` from `utils`: allocates a shared pointer to the value; the
pointee is the value itself in this embedding. -/
def new_ptr (e : Entity) : Entity := e

/-- `Entity::new_ref`: `new_ptr(Self::new(...))`. -/
def Entity.new_ref (counter : Nat) (visibility : Visibility) (name : String)
    (ty : Ty) (kind : EntityInfo) (path : Path) : Entity × Nat :=
  let (e, counter') := Entity.new counter visibility name ty kind path
  (new_ptr e, counter')

/-- `Entity::full_name`: clones the declaring path and appends the entity's
own name as a leaf-object segment. -/
def Entity.full_name (e : Entity) : Path :=
  e.path.push_object e.name

/-- `Entity::is_type`. -/
def Entity.is_type (e : Entity) : Bool :=
  match e.kind with
  | .Primitive | .Structure _ => true
  | _ => false

/-- `Entity::is_struct`. -/
def Entity.is_struct (e : Entity) : Bool :=
  match e.kind with
  | .Structure _ => true
  | _ => false

/-- `Entity::is_function`. -/
def Entity.is_function (e : Entity) : Bool :=
  match e.kind with
  | .Function _ | .AssociatedFunction _ => true
  | _ => false

/-- `Entity::is_field`. -/
def Entity.is_field (e : Entity) : Bool :=
  match e.kind with
  | .Field _ => true
  | _ => false

/-- `Entity::is_instance`. -/
def Entity.is_instance (e : Entity) : Bool :=
  match e.kind with
  | .Variable _ | .Field _ | .SelfParam _ => true
  | _ => false

/-- `Entity::is_self`. -/
def Entity.is_self (e : Entity) : Bool :=
  match e.kind with
  | .SelfParam _ => true
  | _ => false

/-- `Entity::is_resolved`. -/
def Entity.is_resolved (e : Entity) : Bool :=
  match e.kind with
  | .Unresolved _ | .Resolving => false
  | _ => true

/-- `Entity::is_resolving`. -/
def Entity.is_resolving (e : Entity) : Bool :=
  match e.kind with
  | .Resolving => true
  | _ => false

/-- `Entity::is_unresolved`. -/
def Entity.is_unresolved (e : Entity) : Bool :=
  match e.kind with
  | .Unresolved _ => true
  | _ => false

/-- `Entity::type_name`. -/
def Entity.type_name (e : Entity) : String :=
  match e.kind with
  | .Unresolved _ => "unresolved"
  | .Resolving => "resolving"
  | .Primitive => "primitive"
  | .Structure _ => "structure"
  | .Function _ => "function"
  | .AssociatedFunction _ => "associated function"
  | .Variable _ => "variable"
  | .Param _ => "param"
  | .SelfParam _ => "self"
  | .Field _ => "field"

/-- A creation request: which of the four entity constructors is invoked
and with which arguments.  Used to state identity uniqueness over an
arbitrary creation trace. -/
inductive EntityCtor where
  | unresolvedC (visibility : Visibility) (name : String) (item : RawItem) (invalid_type : Ty)
  | resolvingC (visibility : Visibility) (name : String) (invalid_type : Ty)
  | newC (visibility : Visibility) (name : String) (ty : Ty) (kind : EntityInfo) (path : Path)
  | newRefC (visibility : Visibility) (name : String) (ty : Ty) (kind : EntityInfo) (path : Path)
  deriving DecidableEq

/-- Run one constructor request against the current counter. -/
def runCtor (counter : Nat) : EntityCtor → Entity × Nat
  | .unresolvedC v n it ty => Entity.unresolved counter v n it ty
  | .resolvingC v n ty => Entity.resolving counter v n ty
  | .newC v n ty k p => Entity.new counter v n ty k p
  | .newRefC v n ty k p => Entity.new_ref counter v n ty k p

/-- Run a list of constructor requests, threading the counter. -/
def createEntities (counter : Nat) : List EntityCtor → List Entity
  | [] => []
  | r :: rest => (runCtor counter r).1 :: createEntities (runCtor counter r).2 rest

/-- Entities created during a run that starts from the process-initial
counter value. -/
def createdEntities (reqs : List EntityCtor) : List Entity :=
  createEntities ENTITY_ID_INIT reqs

/-!
Statement typer, translated from
`src/language/src/analysis/typer/statements.rs`.  The expression/item
resolution routines (`resolve_expr`, `resolve_expr_to_entity`,
`resolve_item`, `resolve_top_level_item`) live in other modules of the
typer and are not part of the excerpt; they are modelled as arbitrary
oracle functions over the typer state, so every theorem below is
quantified over all of their possible behaviours.
-/

/-- AST expression node from `syntax::ast` (external): opaque content plus
the `position()` every `Node` exposes. -/
structure Expr where
  tag : Nat
  position : Position
  deriving DecidableEq

/-- AST item node from `syntax::ast` (external): opaque content plus
`position()`. -/
structure AstItem where
  tag : Nat
  position : Position
  deriving DecidableEq

/-- Modelled from the spec: `AssignmentOp` is external ("at minimum
plain-assign; compound variants are pass-through tokens").  `Assign` is the
only variant named in the excerpt; every other operator is a compound
token. -/
inductive AssignmentOp where
  | Assign
  | Compound (token : Nat)
  deriving DecidableEq

/-- `StmtKind` from `syntax::ast`. -/
inductive StmtKind where
  | Expr (expr : Expr)
  | Item (item : AstItem)
  | Assignment (op : AssignmentOp) (lvalue : Expr) (rhs : Expr)
  | Empty
  deriving DecidableEq

/-- `Stmt` from `syntax::ast`: a statement node with a position. -/
structure Stmt where
  kind : StmtKind
  position : Position
  deriving DecidableEq

/-- Result metadata on a resolved expression; per spec §4.5 an lvalue's
mutability flag is reachable via its metadata (`inner().meta().mutable`). -/
structure ResultMeta where
  mutable : Bool
  deriving DecidableEq

/-- A resolved (MIR) expression as the statement typer consumes it: it
exposes `position()`, `ty()` and metadata; its further content is opaque. -/
structure MirExpr where
  tag : Nat
  position : Position
  ty : Ty
  meta : ResultMeta
  deriving DecidableEq

/-- `Assignment` from the MIR: operator, resolved target entity, resolved
right-hand side. -/
structure Assignment where
  op : AssignmentOp
  lvalue : Entity
  rhs : MirExpr
  deriving DecidableEq

/-- `MirStmtKind` from the MIR. -/
inductive MirStmtKind where
  | Expr (expr : MirExpr)
  | Item (entity : Entity)
  | Assignment (assignment : Assignment)
  deriving DecidableEq

/-- `MirStmt`: kind, source position, resolved type. -/
structure MirStmt where
  kind : MirStmtKind
  position : Position
  ty : Ty
  deriving DecidableEq

/-- `MirStmt::new`. -/
def MirStmt.new (kind : MirStmtKind) (position : Position) (ty : Ty) : MirStmt :=
  ⟨kind, position, ty⟩

/-- Modelled from the spec: the error taxonomy of §7.  The concrete `Error`
type is external; the excerpt constructs `Error::immutable_entity(name)`
and attaches a position with `with_position`. -/
inductive ErrorKind where
  | CircularDefinition (name : String)
  | ImmutableTarget (name : String)
  | UnresolvedDependency (name : String)
  | TypeMismatch
  | UnsupportedConstruct
  deriving DecidableEq

/-- Modelled from the spec: an error is a kind plus an optional attached
source position ("annotated with position if not already attached"). -/
structure Error where
  kind : ErrorKind
  position : Option Position
  deriving DecidableEq

/-- `Error::immutable_entity(name)`: an immutable-target error carrying the
entity's name, with no position attached yet. -/
def Error.immutable_entity (name : String) : Error :=
  ⟨ErrorKind.ImmutableTarget name, none⟩

/-- `Error::with_position`: attaches the position if none is attached. -/
def Error.with_position (e : Error) (p : Position) : Error :=
  match e.position with
  | none => { e with position := some p }
  | some _ => e

/-- The typer's bit-flag state word.  `EXPR_RESULT_USED` is one bit of the
word; all other bits are bundled as `other`.  `self.state &=
!EXPR_RESULT_USED` clears the one bit and keeps the rest. -/
structure TyperFlags where
  expr_result_used : Bool
  other : Nat
  deriving DecidableEq

/-- `self.state &= !EXPR_RESULT_USED`. -/
def clear_expr_result_used (f : TyperFlags) : TyperFlags :=
  { f with expr_result_used := false }

/-- The type-interning service: the statement typer only needs
`get_unit()`. -/
structure TypeMap where
  unit : Ty
  deriving DecidableEq

/-- `TypeMap::get_unit`. -/
def TypeMap.get_unit (m : TypeMap) : Ty :=
  m.unit

/-- The mutable state of the `Typer` that `resolve_stmt_inner` touches:
the flag word `self.state` and the interner `self.type_map`. -/
structure TyperState where
  state : TyperFlags
  type_map : TypeMap
  deriving DecidableEq

/-- The typer state with the result-used bit cleared, as installed before
resolving the inner expression of an expression statement. -/
def TyperState.with_result_unused (t : TyperState) : TyperState :=
  { t with state := clear_expr_result_used t.state }

/-- The expression/item resolution routines of the typer, external to the
excerpt.  Each takes the typer state (`&mut self`) and returns the new
state together with a result (`Result<_, Error>`). -/
structure TyperOracles where
  resolve_expr : TyperState → Expr → Option Ty → TyperState × Except Error MirExpr
  resolve_expr_to_entity : TyperState → Expr → TyperState × Except Error (Entity × MirExpr)
  resolve_item : TyperState → AstItem → TyperState × Except Error Entity
  resolve_top_level_item : TyperState → AstItem → TyperState × Except Error Entity

/-- Outcome of `resolve_stmt_inner`: a returned `Ok`, a returned `Err`
(both carrying the typer state at the point of return), or a Rust panic
(`todo!` / `unreachable!`), which is not a returned value at all. -/
inductive StmtResult where
  | ok (t : TyperState) (stmt : MirStmt)
  | err (t : TyperState) (e : Error)
  | panic (msg : String)
  deriving DecidableEq

/-- `Typer::resolve_stmt_inner`, translated case by case from
`statements.rs` (the `println!` debug trace has no semantic effect and is
omitted; the message interpolation of the `todo!` panic is elided). -/
def resolve_stmt_inner (O : TyperOracles) (t : TyperState) (stmt : Stmt)
    (top_level : Bool) : StmtResult :=
  match stmt.kind with
  | .Expr expr =>
      let old_state := t.state
      match O.resolve_expr t.with_result_unused expr none with
      | (t2, .error err) => .err t2 err
      | (t2, .ok mexpr) =>
          let t3 := { t2 with state := old_state }
          let position := mexpr.position
          let ty := mexpr.ty
          .ok t3 (MirStmt.new (MirStmtKind.Expr mexpr) position ty)
  | .Item item =>
      match (if top_level then O.resolve_top_level_item t item
             else O.resolve_item t item) with
      | (t2, .error err) => .err t2 err
      | (t2, .ok entity) =>
          let position := item.position
          .ok t2 (MirStmt.new (MirStmtKind.Item entity) position t2.type_map.get_unit)
  | .Assignment op lvalue rhs =>
      match O.resolve_expr_to_entity t lvalue with
      | (t2, .error err) => .err t2 err
      | (t2, .ok (entity, mir_lvalue)) =>
          let mutability := mir_lvalue.meta
          if !mutability.mutable then
            .err t2 ((Error.immutable_entity entity.name).with_position lvalue.position)
          else
            match op with
            | .Assign =>
                let lvalue_type := mir_lvalue.ty
                match O.resolve_expr t2 rhs (some lvalue_type) with
                | (t3, .error err) => .err t3 err
                | (t3, .ok mrhs) =>
                    let assignment : Assignment := ⟨op, entity, mrhs⟩
                    .ok t3 (MirStmt.new (MirStmtKind.Assignment assignment)
                      stmt.position t3.type_map.get_unit)
            | .Compound _ => .panic "Assignment operator is not implemented"
  | .Empty => .panic "internal error: entered unreachable code"

/-- `Typer::resolve_stmt`: the public entry point, `top_level = false`. -/
def resolve_stmt (O : TyperOracles) (t : TyperState) (stmt : Stmt) : StmtResult :=
  resolve_stmt_inner O t stmt false

/-!
Concrete fixtures: a small interner, a typer state, entities, expressions
and oracle instantiations used to evaluate the theorems on closed inputs.
-/

/-- Example interner whose unit type is the handle `0`. -/
def tmEx : TypeMap := ⟨0⟩

/-- Example flag word: result-used set, some other bits set. -/
def flagsEx : TyperFlags := ⟨true, 5⟩

/-- Example typer state. -/
def tEx : TyperState := ⟨flagsEx, tmEx⟩

/-- Example resolved expression with mutable metadata. -/
def mexprEx : MirExpr := ⟨0, 7, 3, ⟨true⟩⟩

/-- Example resolved lvalue with immutable metadata. -/
def mexprImm : MirExpr := ⟨1, 8, 4, ⟨false⟩⟩

/-- Example mutable variable entity `x`. -/
def entVar : Entity :=
  (Entity.new 1 Visibility.Public "x" 3 (EntityInfo.Variable ⟨none, true, false, none⟩)
    Path.empty).1

/-- Example immutable variable entity `c`. -/
def entConst : Entity :=
  (Entity.new 2 Visibility.Public "c" 4 (EntityInfo.Variable ⟨none, false, false, none⟩)
    Path.empty).1

/-- Example lvalue AST expression. -/
def lvEx : Expr := ⟨0, 11⟩

/-- Example right-hand-side AST expression. -/
def rhsEx : Expr := ⟨1, 12⟩

/-- Example inner AST expression of an expression statement. -/
def exprEx : Expr := ⟨2, 14⟩

/-- Example AST item. -/
def itemEx : AstItem := ⟨0, 13⟩

/-- Oracles where every resolution succeeds and leaves the state unchanged. -/
def oracleOk : TyperOracles :=
  { resolve_expr := fun t _ _ => (t, Except.ok mexprEx)
    resolve_expr_to_entity := fun t _ => (t, Except.ok (entVar, mexprEx))
    resolve_item := fun t _ => (t, Except.ok entVar)
    resolve_top_level_item := fun t _ => (t, Except.ok entVar) }

/-- Example error produced by a failing expression resolution. -/
def errEx : Error := ⟨ErrorKind.TypeMismatch, none⟩

/-- Oracles where the lvalue resolves to an immutable target and any
right-hand-side resolution would itself error. -/
def oracleRhsErr : TyperOracles :=
  { oracleOk with
    resolve_expr := fun t _ _ => (t, Except.error errEx)
    resolve_expr_to_entity := fun t _ => (t, Except.ok (entConst, mexprImm)) }

/-- Example expression statement. -/
def stmtExprEx : Stmt := ⟨StmtKind.Expr exprEx, 24⟩

/-- Example item statement. -/
def stmtItemEx : Stmt := ⟨StmtKind.Item itemEx, 22⟩

/-- Example plain assignment statement. -/
def stmtAsgnEx : Stmt := ⟨StmtKind.Assignment AssignmentOp.Assign lvEx rhsEx, 23⟩

/-- Example compound assignment statement (`op` is not plain assign). -/
def stmtCompoundEx : Stmt := ⟨StmtKind.Assignment (AssignmentOp.Compound 0) lvEx rhsEx, 21⟩

/-- The typed statement produced for `stmtItemEx` under `oracleOk`. -/
def mirItemEx : MirStmt := MirStmt.new (MirStmtKind.Item entVar) 13 0

/-- The typed statement produced for `stmtAsgnEx` under `oracleOk`. -/
def mirAsgnEx : MirStmt :=
  MirStmt.new (MirStmtKind.Assignment ⟨AssignmentOp.Assign, entVar, mexprEx⟩) 23 0

/-- The typed statement produced for `stmtExprEx` under `oracleOk`. -/
def mirExprStmtEx : MirStmt := MirStmt.new (MirStmtKind.Expr mexprEx) 7 3

/-- Example creation trace exercising all four entity constructors. -/
def reqsEx : List EntityCtor :=
  [EntityCtor.resolvingC Visibility.Public "a" 0,
   EntityCtor.unresolvedC Visibility.Private "b" 0 0,
   EntityCtor.newC Visibility.Public "c" 2 EntityInfo.Primitive Path.empty,
   EntityCtor.newRefC Visibility.Public "d" 3 (EntityInfo.SelfParam true) Path.empty]

/-- First entity created by `reqsEx`. -/
def entExA : Entity := (Entity.resolving ENTITY_ID_INIT Visibility.Public "a" 0).1

/-- Second entity created by `reqsEx`. -/
def entExB : Entity := (Entity.unresolved 2 Visibility.Private "b" 0 0).1

/-- A creation trace long enough to wrap the `usize` counter: one more
request than the counter has values. -/
def reqsWrap : List EntityCtor :=
  List.replicate (USIZE_SIZE + 1) (EntityCtor.resolvingC Visibility.Public "a" 0)

/-!
Theorems.
-/

/-- Both `Segment` variants render as their name. -/
theorem Segment.render_eq_segmentName : Segment.render = Segment.segmentName :=
  funext fun s => by cases s <;> rfl

/-- C7: rendering a path produces the names of its segments (whether
namespace or leaf-object segments) joined by the `"."` separator, and
rendering the empty path produces the empty string. -/
theorem path_render_joins_segment_names :
    Path.render Path.empty = "" ∧
    (∀ segs : List Segment,
      Path.render ⟨segs⟩ = joinSep "." (segs.map Segment.segmentName)) ∧
    (∀ s : Segment, Path.render ⟨[s]⟩ = Segment.segmentName s) ∧
    (∀ s s2 : Segment, ∀ rest : List Segment,
      Path.render ⟨s :: s2 :: rest⟩ =
        Segment.segmentName s ++ "." ++ Path.render ⟨s2 :: rest⟩) := by
  refine ⟨rfl, ?_, ?_, ?_⟩
  · intro segs
    simp only [Path.render, Segment.render_eq_segmentName]
  · intro s
    simp only [Path.render, Segment.render_eq_segmentName, List.map, joinSep]
  · intro s s2 rest
    simp only [Path.render, Segment.render_eq_segmentName, List.map, joinSep]

/-- C6: `full_name` returns the entity's declaring path with the entity's
own name appended as a leaf-object (`Segment.Object`) segment.  `full_name`
takes the entity immutably and is a pure function in this embedding, so
the entity — in particular its stored `path` — is unchanged by the call. -/
theorem full_name_appends_leaf_object (e : Entity) :
    Entity.full_name e = ⟨e.path.segments ++ [Segment.Object e.name]⟩ :=
  rfl

/-- C9: `Entity.resolve` overwrites exactly `ty`, `kind` and `path`,
leaving `id`, `visibility` and `name` unchanged; `Entity.to_resolving`
overwrites exactly `kind` (to `Resolving`), leaving `id`, `visibility`,
`name`, `ty` and `path` unchanged. -/
theorem resolve_and_to_resolving_frame (e : Entity) (ty : Ty)
    (kind : EntityInfo) (path : Path) :
    (Entity.resolve e ty kind path).id = e.id ∧
    (Entity.resolve e ty kind path).visibility = e.visibility ∧
    (Entity.resolve e ty kind path).name = e.name ∧
    (Entity.resolve e ty kind path).ty = ty ∧
    (Entity.resolve e ty kind path).kind = kind ∧
    (Entity.resolve e ty kind path).path = path ∧
    (Entity.to_resolving e).id = e.id ∧
    (Entity.to_resolving e).visibility = e.visibility ∧
    (Entity.to_resolving e).name = e.name ∧
    (Entity.to_resolving e).ty = e.ty ∧
    (Entity.to_resolving e).path = e.path ∧
    (Entity.to_resolving e).kind = EntityInfo.Resolving :=
  ⟨rfl, rfl, rfl, rfl, rfl, rfl, rfl, rfl, rfl, rfl, rfl, rfl⟩

/-- C8: the predicate accessors are pure total functions of the entity's
`kind` (they are Lean functions pattern-matching on `kind` only), and:
`is_resolved` is `false` exactly when the kind is `Unresolved` or
`Resolving`; `is_instance` is `true` exactly for `Variable`, `Field` and
`SelfParam`; `is_resolving` is `true` exactly for `Resolving`;
`is_unresolved` is `true` exactly for `Unresolved`. -/
theorem predicate_accessors_spec (e : Entity) :
    (e.is_resolved = false ↔
      (∃ it, e.kind = EntityInfo.Unresolved it) ∨ e.kind = EntityInfo.Resolving) ∧
    (e.is_instance = true ↔
      (∃ i, e.kind = EntityInfo.Variable i) ∨ (∃ i, e.kind = EntityInfo.Field i) ∨
      (∃ m, e.kind = EntityInfo.SelfParam m)) ∧
    (e.is_resolving = true ↔ e.kind = EntityInfo.Resolving) ∧
    (e.is_unresolved = true ↔ ∃ it, e.kind = EntityInfo.Unresolved it) := by
  obtain ⟨id, vis, name, ty, kind, path⟩ := e
  cases kind <;>
    simp [Entity.is_resolved, Entity.is_instance, Entity.is_resolving,
      Entity.is_unresolved]

/-- Every constructor request consumes exactly one fresh id: the created
entity's id is the incoming counter and the outgoing counter is its
wrapped successor. -/
theorem runCtor_id_counter (c : Nat) (r : EntityCtor) :
    (runCtor c r).1.id = ⟨c⟩ ∧ (runCtor c r).2 = (c + 1) % USIZE_SIZE := by
  cases r <;>
    simp [runCtor, Entity.unresolved, Entity.resolving, Entity.new,
      Entity.new_ref, new_ptr, EntityId.next]

/-- A creation trace produces exactly one entity per request. -/
theorem createEntities_length (reqs : List EntityCtor) :
    ∀ c : Nat, (createEntities c reqs).length = reqs.length := by
  induction reqs with
  | nil => intro c; rfl
  | cons r rest ih =>
      intro c
      simp only [createEntities, List.length_cons, ih]

/-- The k-th entity of a creation trace started at an in-range counter `c`
has id `(c + k) % USIZE_SIZE`. -/
theorem createEntities_get_id (reqs : List EntityCtor) :
    ∀ (c k : Nat) (a : Entity), c < USIZE_SIZE →
      (createEntities c reqs).get? k = some a →
      a.id = ⟨(c + k) % USIZE_SIZE⟩ := by
  induction reqs with
  | nil =>
      intro c k a hc h
      simp [createEntities] at h
  | cons r rest ih =>
      intro c k a hc h
      cases k with
      | zero =>
          simp [createEntities] at h
          rw [← h, (runCtor_id_counter c r).1]
          congr 1
          rw [Nat.add_zero, Nat.mod_eq_of_lt hc]
      | succ k =>
          simp only [createEntities, List.get?_cons_succ] at h
          have hlt : (runCtor c r).2 < USIZE_SIZE := by
            rw [(runCtor_id_counter c r).2]
            exact Nat.mod_lt _ (by decide)
          have h2 := ih ((runCtor c r).2) k a hlt h
          rw [(runCtor_id_counter c r).2] at h2
          rw [h2]
          congr 1
          rw [Nat.mod_add_mod]
          congr 1
          omega

/-- C4 counterexample: the claim as stated — distinct entities of a run
always have distinct ids — fails on the wrapping counter.  On the concrete
trace `reqsWrap` (one request more than the counter has values, every
request going through a real constructor), the first entity and the entity
created after the counter wraps carry the same id. -/
theorem entity_id_wraparound_reuse :
    ∃ a b : Entity,
      (createdEntities reqsWrap).get? 0 = some a ∧
      (createdEntities reqsWrap).get? USIZE_SIZE = some b ∧
      a.id = b.id := by
  have hlen : (createdEntities reqsWrap).length = USIZE_SIZE + 1 := by
    unfold createdEntities reqsWrap
    rw [createEntities_length, List.length_replicate]
  have h0 : 0 < (createdEntities reqsWrap).length := by omega
  have hS : USIZE_SIZE < (createdEntities reqsWrap).length := by omega
  have hE : ENTITY_ID_INIT < USIZE_SIZE := by decide
  refine ⟨(createdEntities reqsWrap).get ⟨0, h0⟩,
    (createdEntities reqsWrap).get ⟨USIZE_SIZE, hS⟩,
    List.get?_eq_get h0, List.get?_eq_get hS, ?_⟩
  have ha := createEntities_get_id reqsWrap ENTITY_ID_INIT 0 _ hE
    (List.get?_eq_get h0)
  have hb := createEntities_get_id reqsWrap ENTITY_ID_INIT USIZE_SIZE _ hE
    (List.get?_eq_get hS)
  rw [ha, hb]
  congr 1

/-- C4, amended: for every run that never wraps the id counter — the
creation indices considered stay below `USIZE_SIZE - ENTITY_ID_INIT` —
entities created by any of the constructors `unresolved`, `resolving`,
`new`, `new_ref` have pairwise distinct `EntityId`s, and the ids issued by
the allocator are strictly monotonically increasing in creation order,
starting at `ENTITY_ID_INIT = 1`. -/
theorem entity_ids_unique_strictly_monotone (reqs : List EntityCtor)
    (i j : Nat) (a b : Entity) (hij : i < j)
    (hnowrap : ENTITY_ID_INIT + j < USIZE_SIZE)
    (ha : (createdEntities reqs).get? i = some a)
    (hb : (createdEntities reqs).get? j = some b) :
    a.id.id = ENTITY_ID_INIT + i ∧ a.id.id < b.id.id ∧ a.id ≠ b.id := by
  have hE : ENTITY_ID_INIT < USIZE_SIZE := by decide
  have ha2 := createEntities_get_id reqs ENTITY_ID_INIT i a hE ha
  have hb2 := createEntities_get_id reqs ENTITY_ID_INIT j b hE hb
  rw [Nat.mod_eq_of_lt (by omega)] at ha2
  rw [Nat.mod_eq_of_lt hnowrap] at hb2
  rw [ha2, hb2]
  refine ⟨rfl, by simpa using hij, ?_⟩
  intro h
  have h2 : ENTITY_ID_INIT + i = ENTITY_ID_INIT + j := congrArg EntityId.id h
  omega

/-- C4 witness: on the concrete trace `reqsEx`, which stays far below the
wrap bound, the first two created entities have ids 1 and 2, strictly
increasing and distinct. -/
theorem entity_ids_unique_strictly_monotone_witness :
    0 < 1 ∧
    ENTITY_ID_INIT + 1 < USIZE_SIZE ∧
    (createdEntities reqsEx).get? 0 = some entExA ∧
    (createdEntities reqsEx).get? 1 = some entExB ∧
    (entExA.id.id = ENTITY_ID_INIT + 0 ∧ entExA.id.id < entExB.id.id ∧
      entExA.id ≠ entExB.id) :=
  ⟨by decide, by decide, by rfl, by rfl,
    entity_ids_unique_strictly_monotone reqsEx 0 1 entExA entExB (by decide)
      (by decide) (by rfl) (by rfl)⟩

/-- C1: for every assignment statement whose target resolves to an entity
whose lvalue metadata says immutable, `resolve_stmt_inner` returns the
immutable-target error carrying the entity's name and the lvalue's source
position — for every assignment operator, every right-hand side and every
possible behaviour of the expression-resolution oracles (in particular a
right-hand side whose own resolution would error): the right-hand side is
never resolved and the mutability error is the one returned. -/
theorem assignment_immutable_target_wins (O : TyperOracles) (t t2 : TyperState)
    (stmt : Stmt) (top_level : Bool) (op : AssignmentOp) (lvalue rhs : Expr)
    (entity : Entity) (mir_lvalue : MirExpr)
    (hk : stmt.kind = StmtKind.Assignment op lvalue rhs)
    (hres : O.resolve_expr_to_entity t lvalue = (t2, Except.ok (entity, mir_lvalue)))
    (hm : mir_lvalue.meta.mutable = false) :
    resolve_stmt_inner O t stmt top_level =
      StmtResult.err t2 ⟨ErrorKind.ImmutableTarget entity.name, some lvalue.position⟩ := by
  unfold resolve_stmt_inner
  rw [hk]
  simp only [hres]
  simp [hm, Error.immutable_entity, Error.with_position]

/-- C1 witness: under oracles where the target `c` is immutable and any
right-hand-side resolution would error with a type mismatch, the
immutable-target error is the one returned. -/
theorem assignment_immutable_target_wins_witness :
    stmtAsgnEx.kind = StmtKind.Assignment AssignmentOp.Assign lvEx rhsEx ∧
    oracleRhsErr.resolve_expr_to_entity tEx lvEx =
      (tEx, Except.ok (entConst, mexprImm)) ∧
    mexprImm.meta.mutable = false ∧
    resolve_stmt_inner oracleRhsErr tEx stmtAsgnEx false =
      StmtResult.err tEx ⟨ErrorKind.ImmutableTarget entConst.name, some lvEx.position⟩ :=
  ⟨rfl, rfl, rfl,
    assignment_immutable_target_wins oracleRhsErr tEx tEx stmtAsgnEx false
      AssignmentOp.Assign lvEx rhsEx entConst mexprImm rfl rfl rfl⟩

/-- C2 (code bug): on an assignment statement with a compound operator and
a mutable target, `resolve_stmt_inner` does not return an error value —
it panics (the source hits `todo!`), evaluated here on a concrete input. -/
theorem compound_assignment_panics :
    resolve_stmt_inner oracleOk tEx stmtCompoundEx false =
      StmtResult.panic "Assignment operator is not implemented" :=
  rfl

/-- C3: an `Item` statement (top-level or nested) and a successfully
resolved plain-assignment statement both produce a typed statement whose
type is the interner's unit type, regardless of the declared or assigned
value's type (quantified over all oracle behaviours). -/
theorem item_and_assignment_unit_typed (O : TyperOracles) (t : TyperState)
    (stmt : Stmt) (top_level : Bool) :
    (∀ (item : AstItem) (t2 : TyperState) (s : MirStmt),
      stmt.kind = StmtKind.Item item →
      resolve_stmt_inner O t stmt top_level = StmtResult.ok t2 s →
      s.ty = t2.type_map.get_unit) ∧
    (∀ (lvalue rhs : Expr) (t2 : TyperState) (s : MirStmt),
      stmt.kind = StmtKind.Assignment AssignmentOp.Assign lvalue rhs →
      resolve_stmt_inner O t stmt top_level = StmtResult.ok t2 s →
      s.ty = t2.type_map.get_unit) := by
  constructor
  · intro item t2 s hk h
    unfold resolve_stmt_inner at h
    rw [hk] at h
    rcases hcall : (if top_level then O.resolve_top_level_item t item
        else O.resolve_item t item) with ⟨t3, res⟩
    simp only [hcall] at h
    cases res with
    | error err => simp at h
    | ok entity =>
        simp only [StmtResult.ok.injEq] at h
        rw [← h.1, ← h.2]
        rfl
  · intro lvalue rhs t2 s hk h
    unfold resolve_stmt_inner at h
    rw [hk] at h
    rcases hcall : O.resolve_expr_to_entity t lvalue with ⟨t3, res⟩
    simp only [hcall] at h
    cases res with
    | error err => simp at h
    | ok pair =>
        rcases pair with ⟨entity, mir_lvalue⟩
        cases hm : mir_lvalue.meta.mutable with
        | false => simp [hm] at h
        | true =>
            simp only [hm, Bool.not_true, Bool.false_eq_true, if_false] at h
            rcases hrhs : O.resolve_expr t3 rhs (some mir_lvalue.ty) with ⟨t4, res2⟩
            simp only [hrhs] at h
            cases res2 with
            | error err => simp at h
            | ok mrhs =>
                simp only [StmtResult.ok.injEq] at h
                rw [← h.1, ← h.2]
                rfl

/-- C3 witness: under `oracleOk`, the item statement and the plain
assignment statement both resolve with the unit type `0`. -/
theorem item_and_assignment_unit_typed_witness :
    stmtItemEx.kind = StmtKind.Item itemEx ∧
    resolve_stmt_inner oracleOk tEx stmtItemEx false = StmtResult.ok tEx mirItemEx ∧
    mirItemEx.ty = tEx.type_map.get_unit ∧
    stmtAsgnEx.kind = StmtKind.Assignment AssignmentOp.Assign lvEx rhsEx ∧
    resolve_stmt_inner oracleOk tEx stmtAsgnEx false = StmtResult.ok tEx mirAsgnEx ∧
    mirAsgnEx.ty = tEx.type_map.get_unit :=
  ⟨rfl, rfl,
    (item_and_assignment_unit_typed oracleOk tEx stmtItemEx false).1 itemEx tEx
      mirItemEx rfl rfl,
    rfl, rfl,
    (item_and_assignment_unit_typed oracleOk tEx stmtAsgnEx false).2 lvEx rhsEx tEx
      mirAsgnEx rfl rfl⟩

/-- C5: an expression statement resolves its inner expression with the
result-used flag cleared (the oracle is invoked at `t.with_result_unused`
with no expected type), and on success the typed statement carries exactly
the inner expression's own resolved type and its own source position, not
the statement's. -/
theorem expr_stmt_inner_type_position (O : TyperOracles) (t t2 : TyperState)
    (stmt : Stmt) (top_level : Bool) (expr : Expr) (mexpr : MirExpr)
    (hk : stmt.kind = StmtKind.Expr expr)
    (hres : O.resolve_expr t.with_result_unused expr none = (t2, Except.ok mexpr)) :
    resolve_stmt_inner O t stmt top_level =
      StmtResult.ok { t2 with state := t.state }
        (MirStmt.new (MirStmtKind.Expr mexpr) mexpr.position mexpr.ty) := by
  unfold resolve_stmt_inner
  rw [hk]
  simp only [hres]

/-- C5 witness: the statement `stmtExprEx` at position 24 resolves to a
typed statement carrying the inner expression's position 7 and type 3. -/
theorem expr_stmt_inner_type_position_witness :
    stmtExprEx.kind = StmtKind.Expr exprEx ∧
    oracleOk.resolve_expr tEx.with_result_unused exprEx none =
      (tEx.with_result_unused, Except.ok mexprEx) ∧
    resolve_stmt_inner oracleOk tEx stmtExprEx false =
      StmtResult.ok { tEx.with_result_unused with state := tEx.state }
        (MirStmt.new (MirStmtKind.Expr mexprEx) mexprEx.position mexprEx.ty) :=
  ⟨rfl, rfl,
    expr_stmt_inner_type_position oracleOk tEx tEx.with_result_unused stmtExprEx
      false exprEx mexprEx rfl rfl⟩

/-- C10: for an expression statement, on the success path the typer's flag
word after `resolve_stmt_inner` equals its value before the call (the
result-used bit is cleared only for the duration of the inner resolution);
on the error path the restoration is not performed: provided the inner
resolution call leaves the flag word as it received it, the flags are left
with the result-used bit cleared. -/
theorem expr_stmt_state_frame (O : TyperOracles) (t : TyperState) (stmt : Stmt)
    (top_level : Bool) (expr : Expr)
    (hk : stmt.kind = StmtKind.Expr expr) :
    (∀ (t2 : TyperState) (s : MirStmt),
      resolve_stmt_inner O t stmt top_level = StmtResult.ok t2 s →
      t2.state = t.state) ∧
    ((O.resolve_expr t.with_result_unused expr none).1.state =
        t.with_result_unused.state →
      ∀ (t2 : TyperState) (e : Error),
        resolve_stmt_inner O t stmt top_level = StmtResult.err t2 e →
        t2.state = clear_expr_result_used t.state) := by
  constructor
  · intro t2 s h
    unfold resolve_stmt_inner at h
    rw [hk] at h
    rcases hcall : O.resolve_expr t.with_result_unused expr none with ⟨t3, res⟩
    simp only [hcall] at h
    cases res with
    | error err => simp at h
    | ok mexpr =>
        simp only [StmtResult.ok.injEq] at h
        rw [← h.1]
  · intro hpres t2 e h
    unfold resolve_stmt_inner at h
    rw [hk] at h
    rcases hcall : O.resolve_expr t.with_result_unused expr none with ⟨t3, res⟩
    simp only [hcall] at h
    cases res with
    | ok mexpr => simp at h
    | error err =>
        simp only [StmtResult.err.injEq] at h
        rw [← h.1]
        rw [hcall] at hpres
        exact hpres

/-- C10 witness: under `oracleOk` the flag word (result-used bit and the
other bits `5`) is restored on success; under `oracleRhsErr` the error
return leaves the flag word with the result-used bit cleared. -/
theorem expr_stmt_state_frame_witness :
    stmtExprEx.kind = StmtKind.Expr exprEx ∧
    resolve_stmt_inner oracleOk tEx stmtExprEx false =
      StmtResult.ok tEx mirExprStmtEx ∧
    tEx.state = tEx.state ∧
    (oracleRhsErr.resolve_expr tEx.with_result_unused exprEx none).1.state =
      tEx.with_result_unused.state ∧
    resolve_stmt_inner oracleRhsErr tEx stmtExprEx false =
      StmtResult.err tEx.with_result_unused errEx ∧
    tEx.with_result_unused.state = clear_expr_result_used tEx.state :=
  ⟨rfl, rfl,
    (expr_stmt_state_frame oracleOk tEx stmtExprEx false exprEx rfl).1 tEx
      mirExprStmtEx rfl,
    rfl, rfl,
    (expr_stmt_state_frame oracleRhsErr tEx stmtExprEx false exprEx rfl).2 rfl
      tEx.with_result_unused errEx rfl⟩

end Lang
